import Mathlib

/-!
Verification of the copyright-safe recipe transformation and sharing pipeline
(backend/server.py) against its natural-language specification.

Conventions of the embedding:
* Python floats are modelled as exact rationals (all the constants involved —
  0.01, 0.05, 0.10, 0.15, 0.20, 0.25, 0.80, 1.2 — and all the overlap ratios
  are small and the comparisons in the claims are not float-boundary
  sensitive at the inputs we evaluate).
* datetimes are modelled as integer second timestamps; a Python
  timedelta.days is floor division by 86400 (Int.fdiv).
* MongoDB collections are modelled as explicit lookup functions passed in as
  an environment; a find_one result is an Option of the document structure.
* async functions have no internal suspension that matters to these claims
  except where concurrency is modelled explicitly (the redeem race), so they
  are embedded as pure functions of their inputs and of the documents read.
* Python string normalization (str.lower, re.sub on the \w / \s classes,
  str.split) is embedded for the ASCII fragment: Char.toLower agrees with
  str.lower there, Char.isAlphanum plus underscore agrees with \w, and the
  space classes agree.
-/

/- ===================== OverlapScorer (server.py lines 327-380) ============ -/

/-- Python whitespace class (ASCII fragment): the characters str.split and
the regex class \s treat as separators. -/
def pyIsSpace (c : Char) : Bool :=
  c = ' ' || c = '\t' || c = '\n' || c = '\r' || c = '\x0b' || c = '\x0c'

/-- Python regex class \w (ASCII fragment): letters, digits, underscore. -/
def pyIsWordChar (c : Char) : Bool :=
  c.isAlphanum || c = '_'

/-- Helper for str.split(): split a character list on whitespace, dropping
empty fragments, accumulating the current word in reverse. -/
def splitWordsAux : List Char → List Char → List String
  | [], acc => if acc.isEmpty then [] else [String.mk acc.reverse]
  | c :: rest, acc =>
    if pyIsSpace c then
      if acc.isEmpty then splitWordsAux rest []
      else String.mk acc.reverse :: splitWordsAux rest []
    else splitWordsAux rest (c :: acc)

/-- server.py get_ngrams normalization (lines 330-332): text.lower().strip(),
re.sub removing every character that is neither \w nor \s (adjacent kept
characters join up, exactly as filtering does), then str.split(). The strip
is absorbed by split, which already ignores leading and trailing whitespace. -/
def pyWords (text : String) : List String :=
  splitWordsAux ((text.data.map Char.toLower).filter
    (fun c => pyIsWordChar c || pyIsSpace c)) []

/-- text.lower().split() with no punctuation removal — used by the semantic
heuristic in validate_compliance (lines 600-601). -/
def pySplitLower (text : String) : List String :=
  splitWordsAux (text.data.map Char.toLower) []

/-- " ".join(xs) -/
def joinSpace (xs : List String) : String :=
  String.intercalate " " xs

/-- server.py get_ngrams (lines 327-341): the set of contiguous n-word
windows of the normalized text; empty if there are fewer than n words. -/
def get_ngrams (text : String) (n : ℕ) : Finset (List String) :=
  let words := pyWords text
  if words.length < n then ∅
  else ((List.range (words.length - n + 1)).map
    (fun i => (words.drop i).take n)).toFinset

/-- server.py calculate_ngram_overlap (lines 343-357): overlap of the two
n-gram sets as a fraction of the rewritten side, 0 if either set is empty. -/
def calculate_ngram_overlap (source_text rewritten_text : String) (n : ℕ) : ℚ :=
  let source_ngrams := get_ngrams source_text n
  let rewritten_ngrams := get_ngrams rewritten_text n
  if source_ngrams = ∅ ∨ rewritten_ngrams = ∅ then 0
  else ((source_ngrams ∩ rewritten_ngrams).card : ℚ) / (rewritten_ngrams.card : ℚ)

/-- server.py check_8gram_compliance (lines 359-366): the hard 8-gram gate,
passed iff the 8-gram overlap is below 0.01. -/
def check_8gram_compliance (source_text rewritten_text : String) : Bool × ℚ :=
  let overlap := calculate_ngram_overlap source_text rewritten_text 8
  (decide (overlap < 1/100), overlap)

/-- server.py check_overall_ngram_overlap (lines 368-380): overlaps for
n in [3,4,5,6,7,8] combined with weights [0.05,0.10,0.15,0.20,0.25,0.25]. -/
def check_overall_ngram_overlap (source_text rewritten_text : String) : ℚ :=
  let overlaps := [3, 4, 5, 6, 7, 8].map
    (fun n => calculate_ngram_overlap source_text rewritten_text n)
  let weights : List ℚ := [1/20, 1/10, 3/20, 1/5, 1/4, 1/4]
  ((overlaps.zip weights).map (fun p => p.1 * p.2)).sum

/- ===================== ComplianceEvaluator (lines 287-293, 576-618) ======= -/

/-- server.py ComplianceMetrics model (lines 287-293). -/
structure ComplianceMetrics where
  ngram_max_overlap : ℚ
  semantic_avg : ℚ
  structure_variance : Bool
  robots_tos_checked : Bool
  passed_compliance : Bool
deriving DecidableEq

/-- The semantic-similarity heuristic of validate_compliance (lines 600-603):
raw word-set overlap of the joined texts, scaled by 1.2 and clamped to 1;
the divisor is guarded by max(len, 1). -/
def semantic_word_overlap (original_text rewritten_text : String) : ℚ :=
  let original_words := (pySplitLower original_text).toFinset
  let rewritten_words := (pySplitLower rewritten_text).toFinset
  let word_overlap : ℚ :=
    ((original_words ∩ rewritten_words).card : ℚ) / (max rewritten_words.card 1 : ℚ)
  min (word_overlap * (6/5)) 1

/-- server.py validate_compliance (lines 576-618). -/
def validate_compliance (original_instructions rewritten_instructions : List String)
    (check_semantic : Bool) : ComplianceMetrics :=
  let original_text := joinSpace original_instructions
  let rewritten_text := joinSpace rewritten_instructions
  let passed_8gram := (check_8gram_compliance original_text rewritten_text).1
  let max_8gram_overlap := (check_8gram_compliance original_text rewritten_text).2
  let overall_overlap := check_overall_ngram_overlap original_text rewritten_text
  let structure_variance :=
    decide (rewritten_instructions.length ≠ original_instructions.length)
  let semantic_avg : ℚ :=
    if check_semantic ||
        (decide (1/10 < overall_overlap) && decide (overall_overlap < 3/20)) then
      semantic_word_overlap original_text rewritten_text
    else 0
  let passed :=
    passed_8gram && decide (overall_overlap ≤ 3/20) &&
      (decide (semantic_avg < 4/5) || !check_semantic)
  { ngram_max_overlap := max max_8gram_overlap overall_overlap
    semantic_avg := semantic_avg
    structure_variance := structure_variance
    robots_tos_checked := true
    passed_compliance := passed }

/- ===================== DomainQuotaLedger (lines 622-664) ================== -/

/-- server.py domain_quotas document shape (lines 634-641). Timestamps are
integer seconds. -/
structure DomainQuota where
  domain : String
  import_count_90d : ℕ
  last_import : ℤ
  daily_imports : ℕ
  daily_reset : ℤ
deriving DecidableEq

/-- The lazy daily rollover of check_domain_quota (lines 650-652):
Python tests (now - daily_reset).days >= 1, i.e. floor division of the
difference in seconds by 86400 is at least 1; on rollover the local record
gets daily_imports = 0 and daily_reset = now. -/
def quota_after_reset (q : DomainQuota) (now : ℤ) : DomainQuota :=
  if 1 ≤ Int.fdiv (now - q.daily_reset) 86400 then
    { q with daily_imports := 0, daily_reset := now }
  else q

/-- server.py check_domain_quota (lines 622-664): empty domain is always
allowed; an absent record is replaced by a fresh zero record stamped now;
after the lazy rollover the request is rejected iff daily_imports >= 10 or
import_count_90d >= 100. -/
def check_domain_quota (domain : String) (stored : Option DomainQuota) (now : ℤ) : Bool :=
  if domain = "" then true
  else
    let quota := stored.getD
      { domain := domain, import_count_90d := 0, last_import := now,
        daily_imports := 0, daily_reset := now }
    let quota := quota_after_reset quota now
    if quota.daily_imports ≥ 10 then false
    else if quota.import_count_90d ≥ 100 then false
    else true

/- ===================== ShareTokenStore (lines 4506-4518, 4531-4678) ======= -/

/-- server.py import_tokens document shape (lines 4508-4517) plus the
used_at / used_by fields written on redemption (line 4667). -/
structure TokenDoc where
  token : String
  recipe_ids : List String
  sender_id : String
  scope : String
  created_at : ℤ
  expires_at : ℤ
  used : Bool
  used_at : Option ℤ
  used_by : Option String
  recipe_count : ℕ
deriving DecidableEq

/-- The token-lifecycle failures of the share endpoints, by HTTP status and
detail string: 404 (line 4583), 410 already used (line 4586), 410 expired
(line 4599), 400 invalid scope (line 4589), 400 self import (line 4603). -/
inductive TokenError where
  | notFound
  | goneUsed
  | goneExpired
  | invalidScope
  | selfImport
deriving DecidableEq

/-- The validation sequence of import_private_recipes (lines 4580-4603), in
the exact source order: absent token, then used, then scope, then expiry
(strict now > expires_at), then self import. Returns the first failure, or
none when every check passes. -/
def validate_import_token (stored : Option TokenDoc) (user_id : String) (now : ℤ) :
    Option TokenError :=
  match stored with
  | none => some .notFound
  | some t =>
    if t.used then some .goneUsed
    else if t.scope ≠ "private-import-only" then some .invalidScope
    else if now > t.expires_at then some .goneExpired
    else if t.sender_id = user_id then some .selfImport
    else none

/-- Result of the preview endpoint. -/
inductive PreviewOutcome where
  | failure (e : TokenError)
  | success (recipe_count : ℕ) (expires_at : ℤ)
deriving DecidableEq

/-- server.py get_share_preview (lines 4531-4563): absent token fails 404,
a used token fails 410, a token with now > expires_at (strict) fails 410,
otherwise only recipe_count and expires_at are returned. -/
def get_share_preview (stored : Option TokenDoc) (now : ℤ) : PreviewOutcome :=
  match stored with
  | none => .failure .notFound
  | some t =>
    if t.used then .failure .goneUsed
    else if now > t.expires_at then .failure .goneExpired
    else .success t.recipe_count t.expires_at

/- ===================== SharePipeline data (lines 4385-4529, 4605-4668) ==== -/

/-- The slice of a safe_recipes document the pipeline reads and writes
(lines 4463-4481): identity, the rewritten method, and the stored
compliance metrics consulted at reuse (line 4396) and at import (line 4617). -/
structure SafeRecipeDoc where
  id : String
  original_recipe_id : String
  user_id : String
  title_generic : String
  method_rewritten : List String
  compliance : ComplianceMetrics
deriving DecidableEq

/-- The slice of a recipes document used by create_private_share_link. -/
structure RecipeDoc where
  id : String
  user_id : String
  name : String
  instructions : List String
  source_url : String
deriving DecidableEq

/-- RewriteService output consumed by the pipeline (lines 564-568). -/
structure RewriteResult where
  title_generic : String
  method_rewritten : List String
  notes : String
deriving DecidableEq

/-- The external collaborators of create_private_share_link, as lookup
functions: db.recipes.find_one by (id, user_id) (line 4386),
db.safe_recipes.find_one by (original_recipe_id, user_id) (line 4391),
db.domain_quotas.find_one by domain (line 630), urllib-based extract_domain
(lines 682-691, stdlib parsing kept abstract), the two RewriteService calls
per recipe (first attempt line 4415, retry line 4432; none models a raised
exception, caught at line 4496), and the request clock. -/
structure ShareEnv where
  findRecipe : String → String → Option RecipeDoc
  findSafe : String → String → Option SafeRecipeDoc
  quotaStore : String → Option DomainQuota
  extractDomain : String → String
  rewrite1 : String → Option RewriteResult
  rewrite2 : String → Option RewriteResult
  now : ℤ

/-- Outcome of one iteration of the create-share loop: the accepted safe
recipe if any, the issue strings appended to compliance_issues, and how many
RewriteService calls and compliance evaluations this recipe consumed. -/
structure RecipeStepResult where
  accepted : Option SafeRecipeDoc
  issues : List String
  rewriteCalls : ℕ
  complianceCalls : ℕ
deriving DecidableEq

/-- The safe recipe document persisted on success (lines 4463-4481),
restricted to the modelled fields. -/
def mk_safe_recipe (newId rid uid : String) (r : RewriteResult)
    (comp : ComplianceMetrics) : SafeRecipeDoc :=
  { id := newId, original_recipe_id := rid, user_id := uid,
    title_generic := r.title_generic, method_rewritten := r.method_rewritten,
    compliance := comp }

/-- The fresh-rewrite path of one loop iteration (lines 4400-4498): domain
quota gate, first rewrite plus compliance check with check_semantic=False,
on failure one retry with check_semantic=True, persisting only a passing
version. A none rewrite models the raised exception caught at line 4496,
which appends the Error processing issue. Issue strings follow the source
with the surrounding single quotes around names elided. -/
def process_fresh (env : ShareEnv) (uid rid newId : String) (recipe : RecipeDoc) :
    RecipeStepResult :=
  let domain := env.extractDomain recipe.source_url
  if domain ≠ "" && !(check_domain_quota domain (env.quotaStore domain) env.now) then
    { accepted := none, issues := ["Quota exceeded for " ++ domain],
      rewriteCalls := 0, complianceCalls := 0 }
  else
    match env.rewrite1 rid with
    | none =>
      { accepted := none, issues := ["Error processing " ++ recipe.name],
        rewriteCalls := 1, complianceCalls := 0 }
    | some r1 =>
      let comp1 := validate_compliance recipe.instructions r1.method_rewritten false
      if comp1.passed_compliance then
        { accepted := some (mk_safe_recipe newId rid uid r1 comp1), issues := [],
          rewriteCalls := 1, complianceCalls := 1 }
      else
        match env.rewrite2 rid with
        | none =>
          { accepted := none, issues := ["Error processing " ++ recipe.name],
            rewriteCalls := 2, complianceCalls := 1 }
        | some r2 =>
          let comp2 := validate_compliance recipe.instructions r2.method_rewritten true
          if comp2.passed_compliance then
            { accepted := some (mk_safe_recipe newId rid uid r2 comp2), issues := [],
              rewriteCalls := 2, complianceCalls := 2 }
          else
            { accepted := none,
              issues := ["Could not generate compliant version of " ++ recipe.name],
              rewriteCalls := 2, complianceCalls := 2 }

/-- One iteration of the create_private_share_link loop (lines 4385-4498):
a recipe absent under the (id, user_id) filter is skipped by a bare
continue (lines 4387-4388); an existing safe recipe with stored
passed_compliance true is reused outright (lines 4391-4398); everything
else takes the fresh-rewrite path. -/
def process_share_recipe (env : ShareEnv) (uid rid newId : String) : RecipeStepResult :=
  match env.findRecipe rid uid with
  | none => { accepted := none, issues := [], rewriteCalls := 0, complianceCalls := 0 }
  | some recipe =>
    match env.findSafe rid uid with
    | some existing =>
      if existing.compliance.passed_compliance then
        { accepted := some existing, issues := [], rewriteCalls := 0,
          complianceCalls := 0 }
      else process_fresh env uid rid newId recipe
    | none => process_fresh env uid rid newId recipe

/-- The whole batch loop of create_private_share_link: accepted safe recipes
and accumulated issue strings, in order. -/
def create_share_batch (env : ShareEnv) (uid : String) (ids : List String)
    (newIdFor : String → String) : List SafeRecipeDoc × List String :=
  ids.foldl
    (fun acc rid =>
      let r := process_share_recipe env uid rid (newIdFor rid)
      (acc.1 ++ (match r.accepted with | some s => [s] | none => []),
       acc.2 ++ r.issues))
    ([], [])

/- ===================== Redeem (lines 4565-4678) =========================== -/

/-- Result of import_private_recipes: an HTTP failure from the validation
sequence, or the imported safe recipes together with the token document as
rewritten by the update at lines 4664-4668. -/
inductive ImportOutcome where
  | failure (e : TokenError)
  | success (imported : List SafeRecipeDoc) (token : TokenDoc)
deriving DecidableEq

/-- server.py import_private_recipes (lines 4565-4678) after authentication:
validate the token in source order; on success copy each referenced safe
recipe that exists and still has passed_compliance true (missing ones and
failing ones are silently skipped, lines 4613-4619), then unconditionally
mark the token used=True with used_at and used_by (lines 4664-4668). -/
def import_private_recipes (stored : Option TokenDoc) (user_id : String) (now : ℤ)
    (lookupSafe : String → Option SafeRecipeDoc) : ImportOutcome :=
  match stored with
  | none => .failure .notFound
  | some t =>
    match validate_import_token (some t) user_id now with
    | some e => .failure e
    | none =>
      let imported := t.recipe_ids.filterMap (fun rid =>
        match lookupSafe rid with
        | none => none
        | some s => if s.compliance.passed_compliance then some s else none)
      .success imported
        { t with used := true, used_at := some now, used_by := some user_id }

/- ===================== Redeem concurrency model =========================== -/

/-- What one concurrent redeemer ends with. -/
inductive RedeemResult where
  | success
  | failure (e : TokenError)
deriving DecidableEq

/-- Program counter and outcome of one redeemer. Phase 0: has not yet read
the token document; phase 1: read and validated successfully, write still
pending; phase 2: finished. -/
structure ProcState where
  phase : ℕ
  result : Option RedeemResult
deriving DecidableEq

/-- One atomic step of a redeemer against the shared token document. The
source splits redemption into a read plus validation (find_one at line 4580
and the checks through line 4603) and a later unconditional write (update_one
at lines 4664-4668 matches on the token field only, with no used=False
predicate); each becomes one atomic step here, with the recipe-copy loop in
between as the suspension window. -/
def procStep (now : ℤ) (user : String) (store : TokenDoc) (ps : ProcState) :
    TokenDoc × ProcState :=
  match ps.phase with
  | 0 =>
    match validate_import_token (some store) user now with
    | some e => (store, { phase := 2, result := some (.failure e) })
    | none => (store, { phase := 1, result := none })
  | 1 =>
    ({ store with used := true, used_at := some now, used_by := some user },
     { phase := 2, result := some .success })
  | _ => (store, ps)

/-- Run two redeemers against one shared token document under an explicit
interleaving: false schedules a step of redeemer 1, true a step of
redeemer 2. -/
def runRedeemPair (store : TokenDoc) (u1 u2 : String) (now : ℤ)
    (sched : List Bool) : TokenDoc × ProcState × ProcState :=
  sched.foldl
    (fun acc b =>
      if b then
        let s := procStep now u2 acc.1 acc.2.2
        (s.1, acc.2.1, s.2)
      else
        let s := procStep now u1 acc.1 acc.2.1
        (s.1, s.2, acc.2.2))
    (store, { phase := 0, result := none }, { phase := 0, result := none })

/- ===================== Concrete evaluation data =========================== -/

/-- Source text for the 8-gram gate counterexample: eight distinct words. -/
def c3Source : String :=
  joinSpace ((List.range 8).map (fun i => "w" ++ toString i))

/-- Candidate text for the 8-gram gate counterexample: the verbatim 8-word
run w0 .. w7 copied from the source, followed by 100 further distinct words,
for 108 words and 101 distinct 8-grams of which exactly one is shared. -/
def c3Candidate : String :=
  joinSpace ((List.range 108).map (fun i => "w" ++ toString i))

/-- Eight distinct words used to instantiate the amended 8-gram gate claim. -/
def c3Small : String := "p q r s t u v w"

/-- Quota record used to instantiate the quota claim: fresh counters. -/
def qW : DomainQuota :=
  { domain := "example.com", import_count_90d := 0, last_import := 0,
    daily_imports := 0, daily_reset := 0 }

/-- Token that is both expired and has a wrong scope, unused. -/
def t5 : TokenDoc :=
  { token := "tok5", recipe_ids := ["sr5"], sender_id := "sender5",
    scope := "public", created_at := 0, expires_at := 100, used := false,
    used_at := none, used_by := none, recipe_count := 1 }

/-- Unused, well-scoped token whose expiry instant is t = 100. -/
def t6 : TokenDoc :=
  { token := "tok6", recipe_ids := ["sr6"], sender_id := "sender6",
    scope := "private-import-only", created_at := 0, expires_at := 100,
    used := false, used_at := none, used_by := none, recipe_count := 1 }

/-- Valid token used for the redemption race: unused, well scoped, far from
expiry at the chosen clock value. -/
def t1 : TokenDoc :=
  { token := "tok1", recipe_ids := ["sr1"], sender_id := "sender1",
    scope := "private-import-only", created_at := 0, expires_at := 900,
    used := false, used_at := none, used_by := none, recipe_count := 1 }

/-- Valid token used to instantiate the token-consumption claim. -/
def tW10 : TokenDoc :=
  { token := "tok10", recipe_ids := ["sr10"], sender_id := "sender10",
    scope := "private-import-only", created_at := 0, expires_at := 900,
    used := false, used_at := none, used_by := none, recipe_count := 1 }

/-- Stored recipe used to instantiate the reuse claim. -/
def rec0 : RecipeDoc :=
  { id := "r1", user_id := "owner", name := "Soup",
    instructions := ["Boil water", "Serve"], source_url := "" }

/-- Previously persisted safe recipe whose stored compliance passed. -/
def safe0 : SafeRecipeDoc :=
  { id := "safe1", original_recipe_id := "r1", user_id := "owner",
    title_generic := "Simple Soup", method_rewritten := ["Heat the liquid"],
    compliance := { ngram_max_overlap := 0, semantic_avg := 0,
                    structure_variance := true, robots_tos_checked := true,
                    passed_compliance := true } }

/-- Environment for the reuse claim: the recipe exists and a passing safe
recipe is already stored; the rewrite hooks would fail if ever consulted. -/
def envC7 : ShareEnv :=
  { findRecipe := fun rid uid =>
      if rid = "r1" ∧ uid = "owner" then some rec0 else none,
    findSafe := fun rid uid =>
      if rid = "r1" ∧ uid = "owner" then some safe0 else none,
    quotaStore := fun _ => none,
    extractDomain := fun _ => "",
    rewrite1 := fun _ => none,
    rewrite2 := fun _ => none,
    now := 0 }

/-- Environment for the missing-recipe claim: no recipe is found for any id. -/
def envC8 : ShareEnv :=
  { findRecipe := fun _ _ => none,
    findSafe := fun _ _ => none,
    quotaStore := fun _ => none,
    extractDomain := fun _ => "",
    rewrite1 := fun _ => none,
    rewrite2 := fun _ => none,
    now := 0 }

/-- Safe-recipe store in which every referenced safe recipe is missing. -/
def noSafe : String → Option SafeRecipeDoc := fun _ => none

/-- The token document tW10 after a successful redemption by requester at
time 10 (the unconditional update of lines 4664-4668). -/
def tW10Used : TokenDoc :=
  { tW10 with used := true, used_at := some 10, used_by := some "requester" }

/- ===================== Helper lemmas ====================================== -/

/-- The normalized word list of the empty string is empty. -/
theorem pyWords_empty : pyWords "" = [] := rfl

/-- With a positive window size, the empty string has no n-grams. -/
theorem get_ngrams_empty_text {n : ℕ} (hn : 0 < n) : get_ngrams "" n = ∅ := by
  unfold get_ngrams
  rw [pyWords_empty]
  simp [hn]

/-- Overlap against an empty candidate is 0 for any positive window size. -/
theorem calculate_ngram_overlap_empty_cand (s : String) {n : ℕ} (hn : 0 < n) :
    calculate_ngram_overlap s "" n = 0 := by
  unfold calculate_ngram_overlap
  rw [get_ngrams_empty_text hn]
  simp

/-- Bridge for the lazy quota rollover: a nonnegative-divisor floor division
by 86400 reaches 1 exactly when the difference reaches 24 hours. -/
theorem fdiv_day_iff (a : ℤ) : 1 ≤ Int.fdiv a 86400 ↔ 86400 ≤ a := by
  rw [Int.fdiv_eq_ediv a (by norm_num : (0:ℤ) ≤ 86400)]
  rw [Int.le_ediv_iff_mul_le (by norm_num : (0:ℤ) < 86400)]
  norm_num

/- ===================== Claims ============================================= -/

/-- C2: for every pair of instruction lists and every forceSemanticCheck
flag, validate_compliance returns passed equal to the conjunction of the
8-gram gate, overallOverlap <= 0.15, and (semanticAvg < 0.80 or the check
was not forced); overallOverlap is the weighted sum of the overlap ratios
for n in 3..8 with weights [0.05, 0.10, 0.15, 0.20, 0.25, 0.25]; and the
returned metrics carry max(overlap8, overallOverlap) as the first field. -/
theorem C2_validate_compliance_formula (orig rewr : List String) (check : Bool) :
    (validate_compliance orig rewr check).passed_compliance
      = ((check_8gram_compliance (joinSpace orig) (joinSpace rewr)).1
          && decide (check_overall_ngram_overlap (joinSpace orig) (joinSpace rewr) ≤ 3/20)
          && (decide ((validate_compliance orig rewr check).semantic_avg < 4/5) || !check))
    ∧ check_overall_ngram_overlap (joinSpace orig) (joinSpace rewr)
      = calculate_ngram_overlap (joinSpace orig) (joinSpace rewr) 3 * (1/20)
        + calculate_ngram_overlap (joinSpace orig) (joinSpace rewr) 4 * (1/10)
        + calculate_ngram_overlap (joinSpace orig) (joinSpace rewr) 5 * (3/20)
        + calculate_ngram_overlap (joinSpace orig) (joinSpace rewr) 6 * (1/5)
        + calculate_ngram_overlap (joinSpace orig) (joinSpace rewr) 7 * (1/4)
        + calculate_ngram_overlap (joinSpace orig) (joinSpace rewr) 8 * (1/4)
    ∧ (validate_compliance orig rewr check).ngram_max_overlap
      = max (check_8gram_compliance (joinSpace orig) (joinSpace rewr)).2
            (check_overall_ngram_overlap (joinSpace orig) (joinSpace rewr)) := by
  refine ⟨rfl, ?_, rfl⟩
  unfold check_overall_ngram_overlap
  simp [List.zip]
  ring

/-- C9: for every original instruction list and either flag value,
validate_compliance applied to an empty rewritten list is total and returns
passed = true with n-gram overlap 0 and semantic average 0. -/
theorem C9_empty_rewrite_passes (orig : List String) (check : Bool) :
    (validate_compliance orig [] check).passed_compliance = true
    ∧ (validate_compliance orig [] check).ngram_max_overlap = 0
    ∧ (validate_compliance orig [] check).semantic_avg = 0 := by
  have h8 : check_8gram_compliance (joinSpace orig) "" = (true, 0) := by
    unfold check_8gram_compliance
    rw [calculate_ngram_overlap_empty_cand _ (by norm_num : 0 < 8)]
    norm_num
  have hov : check_overall_ngram_overlap (joinSpace orig) "" = 0 := by
    unfold check_overall_ngram_overlap
    simp [List.zip,
      calculate_ngram_overlap_empty_cand (joinSpace orig) (show 0 < 3 by norm_num),
      calculate_ngram_overlap_empty_cand (joinSpace orig) (show 0 < 4 by norm_num),
      calculate_ngram_overlap_empty_cand (joinSpace orig) (show 0 < 5 by norm_num),
      calculate_ngram_overlap_empty_cand (joinSpace orig) (show 0 < 6 by norm_num),
      calculate_ngram_overlap_empty_cand (joinSpace orig) (show 0 < 7 by norm_num),
      calculate_ngram_overlap_empty_cand (joinSpace orig) (show 0 < 8 by norm_num)]
  have hsem : semantic_word_overlap (joinSpace orig) "" = 0 := by
    have e : (pySplitLower "").toFinset = (∅ : Finset String) := rfl
    simp [semantic_word_overlap, e]
  have hmain : validate_compliance orig [] check =
      { ngram_max_overlap := 0, semantic_avg := 0,
        structure_variance := decide (([] : List String).length ≠ orig.length),
        robots_tos_checked := true, passed_compliance := true } := by
    unfold validate_compliance
    rw [show joinSpace ([] : List String) = "" from rfl]
    cases check <;> simp [h8, hov, hsem] <;> norm_num
  rw [hmain]
  exact ⟨rfl, rfl, rfl⟩

set_option maxRecDepth 10000 in
set_option maxHeartbeats 2000000 in
/-- C3 counterexample: the candidate c3Candidate contains the verbatim
8-word run w0 .. w7 copied from c3Source (the two texts share an 8-gram
after normalization), yet check_8gram_compliance passes: the candidate has
101 distinct 8-grams, so the overlap ratio is 1/101 < 0.01. -/
theorem C3_counterexample :
    get_ngrams c3Source 8 ∩ get_ngrams c3Candidate 8 ≠ ∅
    ∧ (check_8gram_compliance c3Source c3Candidate).1 = true := by
  have h1 : (get_ngrams c3Source 8 ∩ get_ngrams c3Candidate 8).card = 1 := by decide
  have h2 : (get_ngrams c3Candidate 8).card = 101 := by decide
  have hne1 : get_ngrams c3Source 8 ≠ ∅ := by decide
  have hne2 : get_ngrams c3Candidate 8 ≠ ∅ := by decide
  have hov : calculate_ngram_overlap c3Source c3Candidate 8 = 1/101 := by
    unfold calculate_ngram_overlap
    simp [hne1, hne2, h1, h2]
  constructor
  · intro h
    rw [h] at h1
    simp at h1
  · unfold check_8gram_compliance
    simp [hov]
    norm_num

/-- C3 amended: if the candidate contains a verbatim 8-word run copied from
the source (the normalized texts share an 8-gram) and the candidate has at
most 100 distinct 8-grams, then the 8-gram gate returns passed = false; for
longer candidates a single shared run can fall below the 0.01 ratio. -/
theorem C3_amended_8gram_gate (s c : String)
    (hne : get_ngrams s 8 ∩ get_ngrams c 8 ≠ ∅)
    (hcard : (get_ngrams c 8).card ≤ 100) :
    (check_8gram_compliance s c).1 = false := by
  have hs : get_ngrams s 8 ≠ ∅ := by
    intro h
    apply hne
    rw [h]
    simp
  have hc : get_ngrams c 8 ≠ ∅ := by
    intro h
    apply hne
    rw [h]
    simp
  have hposn : 0 < (get_ngrams c 8).card :=
    Finset.card_pos.mpr (Finset.nonempty_iff_ne_empty.mpr hc)
  have hpos : (0:ℚ) < ((get_ngrams c 8).card : ℚ) := by exact_mod_cast hposn
  have hinter : (1:ℚ) ≤ ((get_ngrams s 8 ∩ get_ngrams c 8).card : ℚ) := by
    have : 0 < (get_ngrams s 8 ∩ get_ngrams c 8).card :=
      Finset.card_pos.mpr (Finset.nonempty_iff_ne_empty.mpr hne)
    exact_mod_cast this
  have hcard100 : ((get_ngrams c 8).card : ℚ) ≤ 100 := by exact_mod_cast hcard
  have hle : (1:ℚ)/100 ≤
      ((get_ngrams s 8 ∩ get_ngrams c 8).card : ℚ) / ((get_ngrams c 8).card : ℚ) :=
    div_le_div₀ (le_trans zero_le_one hinter) hinter hpos hcard100
  unfold check_8gram_compliance calculate_ngram_overlap
  simp [hs, hc]
  rw [one_div] at hle
  exact hle

/-- Witness for the amended C3 at a concrete input: a candidate identical to
an eight-word source shares an 8-gram, has a single 8-gram, and fails the
gate. -/
theorem C3_amended_witness :
    get_ngrams c3Small 8 ∩ get_ngrams c3Small 8 ≠ ∅
    ∧ (get_ngrams c3Small 8).card ≤ 100
    ∧ (check_8gram_compliance c3Small c3Small).1 = false :=
  ⟨by decide, by decide, C3_amended_8gram_gate c3Small c3Small (by decide) (by decide)⟩

/-- The lazy rollover leaves the rolling 90-day counter untouched. -/
theorem quota_after_reset_90d (q : DomainQuota) (now : ℤ) :
    (quota_after_reset q now).import_count_90d = q.import_count_90d := by
  unfold quota_after_reset
  split <;> rfl

/-- C4: check_domain_quota allows when the quota record is absent or the
domain is empty; when the record exists and now - daily_reset is at least
24 hours the local record is reset to daily_imports = 0 with
daily_reset = now; and the check rejects exactly when the (post-rollover)
daily count reaches 10 or the rolling 90-day count reaches 100. -/
theorem C4_check_domain_quota (domain : String) (stored : Option DomainQuota)
    (q : DomainQuota) (now : ℤ) :
    check_domain_quota domain none now = true
    ∧ check_domain_quota "" stored now = true
    ∧ (domain ≠ "" →
        (quota_after_reset q now =
          if 86400 ≤ now - q.daily_reset then
            { q with daily_imports := 0, daily_reset := now }
          else q)
        ∧ (check_domain_quota domain (some q) now = false ↔
            ((quota_after_reset q now).daily_imports ≥ 10
              ∨ q.import_count_90d ≥ 100))) := by
  refine ⟨?_, ?_, fun hd => ⟨?_, ?_⟩⟩
  · unfold check_domain_quota
    by_cases h : domain = ""
    · simp [h]
    · simp [h, quota_after_reset, Option.getD, sub_self]
  · unfold check_domain_quota
    simp
  · unfold quota_after_reset
    simp [fdiv_day_iff]
  · have h90 := quota_after_reset_90d q now
    unfold check_domain_quota
    rw [if_neg hd]
    simp only [Option.getD]
    split_ifs with h1 h2
    · simp [h1]
    · rw [h90] at h2
      simp [h1, h2]
    · rw [h90] at h2
      simp [h1, h2]

/-- Witness for C4 at a concrete record: a fresh quota for example.com is
allowed, with the stated reset and rejection characterizations. -/
theorem C4_witness :
    (quota_after_reset qW 5 =
      if 86400 ≤ (5:ℤ) - qW.daily_reset then
        { qW with daily_imports := 0, daily_reset := 5 }
      else qW)
    ∧ (check_domain_quota "example.com" (some qW) 5 = false ↔
        ((quota_after_reset qW 5).daily_imports ≥ 10
          ∨ qW.import_count_90d ≥ 100)) :=
  (C4_check_domain_quota "example.com" (some qW) qW 5).2.2 (by decide)

/-- C5 counterexample: token t5 is unused, expired at now = 1000, and has a
wrong scope, yet validate_import_token reports InvalidScope, not Gone — the
source checks scope (line 4588) before expiry (lines 4592-4599). -/
theorem C5_counterexample :
    t5.used = false
    ∧ (1000:ℤ) > t5.expires_at
    ∧ t5.scope ≠ "private-import-only"
    ∧ validate_import_token (some t5) "requester" 1000 = some TokenError.invalidScope
    ∧ validate_import_token (some t5) "requester" 1000 ≠ some TokenError.goneExpired
    ∧ validate_import_token (some t5) "requester" 1000 ≠ some TokenError.goneUsed :=
  ⟨rfl, by decide, by decide, by decide, by decide, by decide⟩

/-- C5 amended: import_private_recipes fails in the sequence NotFound if the
token is absent; Gone if already used; InvalidScope if the scope is wrong;
Gone if expired (strictly past expires_at); SelfImport if the requester is
the sender — in particular a token that is both expired and has a wrong
scope yields InvalidScope, not Gone. -/
theorem C5_amended_check_order (t : TokenDoc) (user : String) (now : ℤ) :
    (validate_import_token none user now = some TokenError.notFound)
    ∧ (t.used = true → validate_import_token (some t) user now = some TokenError.goneUsed)
    ∧ (t.used = false → t.scope ≠ "private-import-only" →
        validate_import_token (some t) user now = some TokenError.invalidScope)
    ∧ (t.used = false → t.scope = "private-import-only" → now > t.expires_at →
        validate_import_token (some t) user now = some TokenError.goneExpired)
    ∧ (t.used = false → t.scope = "private-import-only" → ¬ now > t.expires_at →
        t.sender_id = user →
        validate_import_token (some t) user now = some TokenError.selfImport)
    ∧ (t.used = false → t.scope = "private-import-only" → ¬ now > t.expires_at →
        t.sender_id ≠ user →
        validate_import_token (some t) user now = none) := by
  unfold validate_import_token
  refine ⟨rfl, ?_, ?_, ?_, ?_, ?_⟩
  · intro h
    simp [h]
  · intro h hs
    simp [h, hs]
  · intro h hs he
    simp [h, hs, he]
  · intro h hs he hself
    simp [h, hs, he, hself]
  · intro h hs he hself
    simp [h, hs, he, hself]

/-- Witness for the amended C5: the expired wrong-scope token t5 yields
InvalidScope. -/
theorem C5_amended_witness :
    validate_import_token (some t5) "requester" 1000 = some TokenError.invalidScope :=
  (C5_amended_check_order t5 "requester" 1000).2.2.1 rfl (by decide)

/-- C6 counterexample: at the exact boundary instant now = expires_at = 100
the unused token t6 is accepted by both endpoints — the preview succeeds and
the redeem validation reports no error — because both compare with strict
now > expires_at (lines 4554 and 4598), so the claim fails at the boundary. -/
theorem C6_counterexample :
    t6.used = false
    ∧ (100:ℤ) ≥ t6.expires_at
    ∧ get_share_preview (some t6) 100 = PreviewOutcome.success 1 100
    ∧ validate_import_token (some t6) "requester" 100 = none :=
  ⟨rfl, by decide, by decide, by decide⟩

/-- C6 amended: a token with now strictly past expires_at and used = false
fails Gone from both the preview and the redeem validation (the latter when
its scope is the import scope, which is checked first); at the exact
boundary instant now = expires_at the token is still accepted. -/
theorem C6_amended_expiry (t : TokenDoc) (user : String) (now : ℤ)
    (hu : t.used = false) (he : now > t.expires_at) :
    get_share_preview (some t) now = PreviewOutcome.failure TokenError.goneExpired
    ∧ (t.scope = "private-import-only" →
        validate_import_token (some t) user now = some TokenError.goneExpired) := by
  constructor
  · unfold get_share_preview
    simp [hu, he]
  · intro hs
    unfold validate_import_token
    simp [hu, hs, he]

/-- Witness for the amended C6: one second past expiry, t6 is Gone in both
endpoints. -/
theorem C6_amended_witness :
    get_share_preview (some t6) 101 = PreviewOutcome.failure TokenError.goneExpired
    ∧ validate_import_token (some t6) "requester" 101 = some TokenError.goneExpired :=
  ⟨(C6_amended_expiry t6 "requester" 101 rfl (by decide)).1,
   (C6_amended_expiry t6 "requester" 101 rfl (by decide)).2 rfl⟩

/-- C7: when the recipe exists under (recipeId, ownerId) and a previously
persisted safe recipe for that pair has stored passed_compliance = true,
the create-share iteration returns exactly that stored safe recipe, with no
RewriteService call and no compliance recomputation. -/
theorem C7_reuse_passing_safe (env : ShareEnv) (uid rid newId : String)
    (recipe : RecipeDoc) (hr : env.findRecipe rid uid = some recipe)
    (e : SafeRecipeDoc) (hs : env.findSafe rid uid = some e)
    (hp : e.compliance.passed_compliance = true) :
    process_share_recipe env uid rid newId =
      { accepted := some e, issues := [], rewriteCalls := 0, complianceCalls := 0 } := by
  unfold process_share_recipe
  rw [hr, hs]
  simp [hp]

/-- Witness for C7: in envC7 the stored passing safe recipe safe0 is reused
verbatim with zero rewrite and compliance calls. -/
theorem C7_witness :
    process_share_recipe envC7 "owner" "r1" "new1" =
      { accepted := some safe0, issues := [], rewriteCalls := 0,
        complianceCalls := 0 } :=
  C7_reuse_passing_safe envC7 "owner" "r1" "new1" rec0 (by decide) safe0 (by decide) rfl

/-- C8 counterexample: in envC8 the recipe r1 is absent (so in particular
not owned by the caller), yet the create-share iteration and the whole batch
record no issue message at all — the source skips such a recipe with a bare
continue (lines 4387-4388). -/
theorem C8_counterexample :
    envC8.findRecipe "r1" "someone" = none
    ∧ process_share_recipe envC8 "someone" "r1" "new1" =
        { accepted := none, issues := [], rewriteCalls := 0, complianceCalls := 0 }
    ∧ (create_share_batch envC8 "someone" ["r1"] (fun _ => "new1")).2 = [] :=
  ⟨rfl, rfl, rfl⟩

/-- C8 amended: a recipe id that is missing or not owned by the caller is
skipped silently — no issue message is recorded for it; issue strings are
produced only for quota denials, rewrite-processing errors, and compliance
failures. -/
theorem C8_amended_silent_skip (env : ShareEnv) (uid rid newId : String)
    (hr : env.findRecipe rid uid = none) :
    process_share_recipe env uid rid newId =
      { accepted := none, issues := [], rewriteCalls := 0, complianceCalls := 0 } := by
  unfold process_share_recipe
  rw [hr]

/-- Witness for the amended C8 at a concrete environment. -/
theorem C8_amended_witness :
    process_share_recipe envC8 "someone" "r2" "new2" =
      { accepted := none, issues := [], rewriteCalls := 0, complianceCalls := 0 } :=
  C8_amended_silent_skip envC8 "someone" "r2" "new2" rfl

/-- C10: a redeem request that passes every token validation check marks the
token used = true with used_at and used_by recorded, even when every
referenced safe recipe is missing or fails the compliance re-validation —
the call then returns an empty imported list, and any later redemption
attempt on the updated token fails Gone. -/
theorem C10_token_consumed (t : TokenDoc) (user : String) (now : ℤ)
    (lookupSafe : String → Option SafeRecipeDoc)
    (hv : validate_import_token (some t) user now = none)
    (hmiss : ∀ rid ∈ t.recipe_ids, ∀ s, lookupSafe rid = some s →
        s.compliance.passed_compliance = false) :
    import_private_recipes (some t) user now lookupSafe =
      ImportOutcome.success []
        { t with used := true, used_at := some now, used_by := some user }
    ∧ ∀ (user2 : String) (now2 : ℤ) (lookup2 : String → Option SafeRecipeDoc),
        import_private_recipes
          (some { t with used := true, used_at := some now, used_by := some user })
          user2 now2 lookup2 = ImportOutcome.failure TokenError.goneUsed := by
  constructor
  · unfold import_private_recipes
    simp only [hv]
    simp only [ImportOutcome.success.injEq]
    constructor
    · rw [List.filterMap_eq_nil_iff]
      intro rid hrid
      cases hl : lookupSafe rid with
      | none => simp
      | some s =>
        have := hmiss rid hrid s hl
        simp [this]
    · trivial
  · intro user2 now2 lookup2
    unfold import_private_recipes validate_import_token
    simp

/-- Witness for C10: the valid token tW10 with an all-missing safe-recipe
store is consumed, returns no imports, and is Gone on a second attempt. -/
theorem C10_witness :
    import_private_recipes (some tW10) "requester" 10 noSafe =
      ImportOutcome.success [] tW10Used
    ∧ import_private_recipes (some tW10Used) "other" 20 noSafe =
        ImportOutcome.failure TokenError.goneUsed :=
  ⟨(C10_token_consumed tW10 "requester" 10 noSafe (by decide)
      (by intro rid hrid s hl; cases hl)).1,
   (C10_token_consumed tW10 "requester" 10 noSafe (by decide)
      (by intro rid hrid s hl; cases hl)).2 "other" 20 noSafe⟩

/-- C1: the source implements the used transition as a separate read-check
(find_one at line 4580 plus the checks through line 4603) followed by an
unconditional update (lines 4664-4668, matched on the token field only,
with no used = False predicate), so the transition is not a single atomic
conditional write. Under the interleaving read1, read2, write1, write2 both
concurrent redeemers of the same valid token succeed, contradicting the
exactly-one-success requirement; only the fully sequential interleaving
gives one success and one Gone. -/
theorem C1_redeem_race_double_success :
    ((runRedeemPair t1 "alice" "bob" 10 [false, true, false, true]).2.1.result
        = some RedeemResult.success
      ∧ (runRedeemPair t1 "alice" "bob" 10 [false, true, false, true]).2.2.result
        = some RedeemResult.success)
    ∧ ((runRedeemPair t1 "alice" "bob" 10 [false, false, true, true]).2.1.result
        = some RedeemResult.success
      ∧ (runRedeemPair t1 "alice" "bob" 10 [false, false, true, true]).2.2.result
        = some (RedeemResult.failure TokenError.goneUsed)) := by
  decide
